import Mathlib

/-!
Verification development for the ton-blockchain-mcp repository.

The subject is the natural-language bridge in `ton_agent/app.py` and
`prompt_handler/app.py`: LLM-driven entity extraction, intent routing,
the SSE session bridge, the conversation-history store, the tool-catalog
cache, and the Claude retry policy.  Every definition below is a shallow
embedding translated from the Python source; outbound HTTP calls and LLM
replies are modelled as oracle inputs to the embedded functions.
-/

namespace TonMcp

/-! ## A model of Python JSON values and of `json.loads`

The Python code calls `json.loads` in `extract_json`
(ton_agent/app.py lines 199-230) and in the SSE worker
(ton_agent/app.py line 253).  `Json` models the values; `jsonLoads`
models `json.loads` restricted to integer numerals (the repository's
inputs never require floats) and to the simple escape sequences; a
`\x7bu...\x7d` escape or a float literal is treated as a parse failure.
-/

inductive Json where
  | null : Json
  | bool (b : Bool) : Json
  | num (n : Int) : Json
  | str (s : String) : Json
  | arr (elems : List Json) : Json
  | obj (fields : List (String × Json)) : Json

/-- JSON whitespace characters accepted by `json.loads` between tokens
(space, tab, line feed, carriage return). -/
def jsonWs (c : Char) : Bool :=
  [32, 9, 10, 13].contains c.toNat

/-- Drop leading JSON whitespace. -/
def skipWs : List Char → List Char
  | [] => []
  | c :: cs => if jsonWs c then skipWs cs else c :: cs

/-- The short JSON escapes as escape-letter / decoded-character pairs
(backspace and form feed written by code). -/
def escPairs : List (Char × Char) :=
  [('"', '"'), ('\\', '\\'), ('/', '/'), ('n', '\n'), ('t', '\t'),
   ('r', '\r'), ('b', Char.ofNat 8), ('f', Char.ofNat 12)]

/-- Decode a single-character JSON string escape. -/
def escChar (c : Char) : Option Char :=
  (escPairs.find? (fun p => p.1 == c)).map (fun p => p.2)

/-- Parse the body of a JSON string after the opening quote; returns the
decoded characters together with the input remaining after the closing
quote. -/
def parseStringBody : List Char → Option (List Char × List Char)
  | [] => none
  | c :: cs =>
    if c == '"' then some ([], cs)
    else if c == '\\' then
      match cs with
      | [] => none
      | e :: cs2 =>
        match escChar e, parseStringBody cs2 with
        | some d, some (body, rest) => some (d :: body, rest)
        | _, _ => none
    else
      match parseStringBody cs with
      | some (body, rest) => some (c :: body, rest)
      | none => none

/-- Longest leading run of decimal digits. -/
def takeDigits : List Char → List Char × List Char
  | [] => ([], [])
  | c :: cs =>
    if c.isDigit then
      let (ds, r) := takeDigits cs
      (c :: ds, r)
    else ([], c :: cs)

/-- Numeric value of a digit run. -/
def digitsToNat (ds : List Char) : Nat :=
  ds.foldl (fun a c => a * 10 + (c.toNat - 48)) 0

/-- Insert a key into an association list, overwriting the value when the
key is already present (the semantics of a Python `dict` insert). -/
def upsert {V : Type} : List (String × V) → String → V → List (String × V)
  | [], k, v => [(k, v)]
  | p :: rest, k, v =>
    if p.1 == k then (k, v) :: rest else p :: upsert rest k v

mutual

/-- Fuel-indexed JSON value parser: returns the value and the remaining
input. -/
def parseVal : Nat → List Char → Option (Json × List Char)
  | 0, _ => none
  | fuel+1, input =>
    match skipWs input with
    | [] => none
    | c :: cs =>
      if c == '"' then
        match parseStringBody cs with
        | some (body, rest) => some (Json.str (String.mk body), rest)
        | none => none
      else if c == '{' then parseObj fuel cs
      else if c == '[' then parseArr fuel cs
      else if c == 't' then
        match cs with
        | 'r' :: 'u' :: 'e' :: rest => some (Json.bool true, rest)
        | _ => none
      else if c == 'f' then
        match cs with
        | 'a' :: 'l' :: 's' :: 'e' :: rest => some (Json.bool false, rest)
        | _ => none
      else if c == 'n' then
        match cs with
        | 'u' :: 'l' :: 'l' :: rest => some (Json.null, rest)
        | _ => none
      else if c == '-' then
        match takeDigits cs with
        | ([], _) => none
        | (ds, rest) => some (Json.num (-(digitsToNat ds : Int)), rest)
      else if c.isDigit then
        match takeDigits (c :: cs) with
        | (ds, rest) => some (Json.num (digitsToNat ds), rest)
      else none

/-- Parse the inside of a JSON object after the opening brace. -/
def parseObj : Nat → List Char → Option (Json × List Char)
  | 0, _ => none
  | fuel+1, input =>
    match skipWs input with
    | '}' :: rest => some (Json.obj [], rest)
    | _ => parseObjFields fuel input []

/-- Parse one or more `key : value` pairs followed by `,` or the closing
brace. -/
def parseObjFields : Nat → List Char → List (String × Json) →
    Option (Json × List Char)
  | 0, _, _ => none
  | fuel+1, input, acc =>
    match skipWs input with
    | '"' :: cs =>
      match parseStringBody cs with
      | none => none
      | some (key, rest1) =>
        match skipWs rest1 with
        | ':' :: rest2 =>
          match parseVal fuel rest2 with
          | none => none
          | some (v, rest3) =>
            let acc2 := upsert acc (String.mk key) v
            match skipWs rest3 with
            | ',' :: rest4 => parseObjFields fuel rest4 acc2
            | '}' :: rest4 => some (Json.obj acc2, rest4)
            | _ => none
        | _ => none
    | _ => none

/-- Parse the inside of a JSON array after the opening bracket. -/
def parseArr : Nat → List Char → Option (Json × List Char)
  | 0, _ => none
  | fuel+1, input =>
    match skipWs input with
    | ']' :: rest => some (Json.arr [], rest)
    | _ => parseArrElems fuel input []

/-- Parse one or more array elements followed by `,` or the closing
bracket. -/
def parseArrElems : Nat → List Char → List Json →
    Option (Json × List Char)
  | 0, _, _ => none
  | fuel+1, input, acc =>
    match parseVal fuel input with
    | none => none
    | some (v, rest) =>
      match skipWs rest with
      | ',' :: rest2 => parseArrElems fuel rest2 (acc ++ [v])
      | ']' :: rest2 => some (Json.arr (acc ++ [v]), rest2)
      | _ => none

end

/-- Model of Python `json.loads` on a character list: the whole input,
up to surrounding whitespace, must be one JSON value. -/
def jsonLoadsList (cs : List Char) : Option Json :=
  match parseVal (cs.length + 1) cs with
  | some (v, rest) => if (skipWs rest).isEmpty then some v else none
  | none => none

/-- Model of Python `json.loads` on a string. -/
def jsonLoads (s : String) : Option Json := jsonLoadsList s.data

example : jsonLoads "\x7b\"a\": 1\x7d" = some (Json.obj [("a", Json.num 1)]) := rfl

example : jsonLoads "\x7b\"a\":1\x7d\x7d" = none := rfl

example : jsonLoads " [1, \"x\", null, true] " =
    some (Json.arr [Json.num 1, Json.str "x", Json.null, Json.bool true]) := rfl

example : jsonLoads "not json" = none := rfl

/-! ## A model of the Python values reaching the parsers

`call_claude` returns either the `content` field of the provider reply
(usually a list of content blocks), the fallback string, or an error
dict; the downstream parsers branch on `isinstance`.  `PyVal` models
exactly the shapes those branches distinguish. -/

inductive PyVal where
  | str (s : String) : PyVal
  | int (n : Int) : PyVal
  | list (xs : List PyVal) : PyVal
  | dict (fields : List (String × PyVal)) : PyVal
  | nonePy : PyVal

/-- Association-list lookup with Python `dict` key semantics. -/
def pyLookup {V : Type} : List (String × V) → String → Option V
  | [], _ => none
  | p :: rest, k => if p.1 == k then some p.2 else pyLookup rest k

/-- Whitespace characters stripped by Python `str.strip` (space, tab,
line feed, carriage return, vertical tab, form feed). -/
def pyWs (c : Char) : Bool :=
  [32, 9, 10, 13, 11, 12].contains c.toNat

/-- Python `str.strip` on a character list. -/
def pyStrip (s : List Char) : List Char :=
  ((s.dropWhile pyWs).reverse.dropWhile pyWs).reverse

/-- The backtick character (used by the markdown fence markers). -/
def btick : Char := Char.ofNat 96

/-- Model of `re.sub(r'^X[a-zA-Z]*\n', '', text)` where `X` is three
backticks: remove an opening markdown code fence at the start of the
text. -/
def stripFenceOpen (s : List Char) : List Char :=
  match s with
  | c1 :: c2 :: c3 :: rest =>
    if c1 == btick && c2 == btick && c3 == btick then
      match rest.span Char.isAlpha with
      | (_, '\n' :: r3) => r3
      | _ => s
    else s
  | _ => s

/-- Model of `re.sub(r'X$', '', text)` where `X` is three backticks: the
anchor matches at the end of the string or just before one final
newline. -/
def stripFenceClose (s : List Char) : List Char :=
  match s.reverse with
  | c1 :: c2 :: c3 :: rest =>
    if c1 == btick && c2 == btick && c3 == btick then rest.reverse
    else
      match s.reverse with
      | '\n' :: d1 :: d2 :: d3 :: rest2 =>
        if d1 == btick && d2 == btick && d3 == btick then
          ('\n' :: rest2).reverse
        else s
      | _ => s
  | _ => s

/-- Index of the last element satisfying `p`. -/
def findLastIdx (p : Char → Bool) (s : List Char) : Option Nat :=
  match s.reverse.findIdx? p with
  | some k => some (s.length - 1 - k)
  | none => none

/-- Model of `re.search(r'\x7b[\s\S]*\x7d', text)` with its greedy star:
the match, when it exists, runs from the first open brace to the last
close brace of the text. -/
def braceSpan (s : List Char) : Option (List Char) :=
  match s.findIdx? (· == '{') with
  | none => none
  | some i =>
    match findLastIdx (· == '}') s with
    | none => none
    | some j => if i < j then some ((s.drop i).take (j - i + 1)) else none

/-- The content-block scan shared by `extract_json` and
`map_intent_to_tool_llm` (ton_agent/app.py lines 203-210 and 291-298):
take the first element that is a dict with a `text` key, or the first
element that is a string; when no element matches, the loop leaves the
list value in place. -/
def scanBlocks : List PyVal → Option PyVal
  | [] => none
  | x :: xs =>
    match x with
    | PyVal.dict fs =>
      match pyLookup fs "text" with
      | some v => some v
      | none => scanBlocks xs
    | PyVal.str s => some (PyVal.str s)
    | _ => scanBlocks xs

/-- The text a parser works on after the block scan and the
`isinstance(text, str)` guard: `some` exactly when the Python code
reaches its string-processing path. -/
def blockText (result : PyVal) : Option String :=
  match (match result with
         | PyVal.list xs => (scanBlocks xs).getD (PyVal.list xs)
         | v => v) with
  | PyVal.str s => some s
  | _ => none

/-- The cleaning pipeline of `extract_json` (ton_agent/app.py lines
214-217): strip, remove an opening fence, remove a closing fence. -/
def cleanText (s : String) : List Char :=
  stripFenceClose (stripFenceOpen (pyStrip s.data))

/-! ## Entity extraction (claim C5)

`extract_json` embeds the helper of the same name inside
`parse_blockchain_prompt_with_claude` (ton_agent/app.py lines 200-230);
the LLM reply is the oracle argument `result`. -/

def extract_json (result : PyVal) : Json :=
  match blockText result with
  | none => Json.obj []
  | some s =>
    let t := cleanText s
    match braceSpan t with
    | some sp =>
      match jsonLoadsList sp with
      | some v => v
      | none => (jsonLoadsList t).getD (Json.obj [])
    | none => (jsonLoadsList t).getD (Json.obj [])

/-- The tail of `parse_blockchain_prompt_with_claude` (ton_agent/app.py
lines 231-234): the extracted value is coerced to a mapping, anything
that is not a dict becomes the empty mapping.  The LLM call itself is
the oracle argument. -/
def parse_blockchain_prompt_with_claude (result : PyVal) : Json :=
  match extract_json result with
  | Json.obj fs => Json.obj fs
  | _ => Json.obj []

example :
    parse_blockchain_prompt_with_claude (PyVal.str "\x7b\"a\": 1\x7d") =
      Json.obj [("a", Json.num 1)] := rfl

example :
    parse_blockchain_prompt_with_claude
      (PyVal.list [PyVal.dict
        [("text", PyVal.str "\x60\x60\x60json\n\x7b\"a\": 1\x7d\x60\x60\x60")]]) =
      Json.obj [("a", Json.num 1)] := rfl

example : parse_blockchain_prompt_with_claude (PyVal.str "whatever") = Json.obj [] := rfl

example : parse_blockchain_prompt_with_claude (PyVal.str "[1, 2]") = Json.obj [] := rfl

/-! ## The prompt_handler entity extraction parser (claim C5)

prompt_handler/app.py lines 61-98 holds a second parser for the same
task with different behavior: it has no brace-span recovery and
returns whatever value `json.loads` produces, without coercing it to a
mapping.  Its list branch walks the content blocks and stops at the
first whose cleaned text parses; the `.strip()` call at line 75 sits
outside the try-block, so a block that is a dict without a string
under `text` raises an uncaught AttributeError, modelled by
`Except.error ()`. -/

/-- Python truthiness of a value (`if not result:` at line 87). -/
def pyFalsy : PyVal → Bool
  | PyVal.str s => s == ""
  | PyVal.int n => n == 0
  | PyVal.list xs => xs.isEmpty
  | PyVal.dict fs => fs.isEmpty
  | PyVal.nonePy => true

/-- The single-quote character, used by Python repr. -/
def pyQuote : Char := Char.ofNat 39

/-- Escape backslashes and single quotes the way repr renders a
single-quoted string body. -/
def pyReprStrChars (s : List Char) : List Char :=
  (s.map (fun c => if c == '\\' || c == pyQuote then ['\\', c] else [c])).flatten

mutual

/-- Python repr of a value, for the str() coercions at
prompt_handler/app.py lines 74 and 90.  Strings inside collections are
rendered single-quoted with backslash and quote escaped; repr's switch
to double quotes for a string containing a single quote but no double
quote, and its escapes for control characters, are not modelled (no
input below reaches them). -/
def pyRepr : PyVal → String
  | PyVal.str s => String.mk (pyQuote :: (pyReprStrChars s.data ++ [pyQuote]))
  | PyVal.int n => toString n
  | PyVal.nonePy => "None"
  | PyVal.list xs => "[" ++ pyReprElems xs ++ "]"
  | PyVal.dict fs => "\x7b" ++ pyReprFields fs ++ "\x7d"

/-- Comma-separated repr of list elements. -/
def pyReprElems : List PyVal → String
  | [] => ""
  | [x] => pyRepr x
  | x :: y :: xs => pyRepr x ++ ", " ++ pyReprElems (y :: xs)

/-- Comma-separated `key: value` repr of dict fields. -/
def pyReprFields : List (String × PyVal) → String
  | [] => ""
  | [(k, v)] => pyRepr (PyVal.str k) ++ ": " ++ pyRepr v
  | (k, v) :: f :: fs =>
    pyRepr (PyVal.str k) ++ ": " ++ pyRepr v ++ ", " ++ pyReprFields (f :: fs)

end

/-- Python str() as applied by the prompt_handler parser: a string is
itself, everything else its repr. -/
def pyStr : PyVal → String
  | PyVal.str s => s
  | v => pyRepr v

/-- The cleaning pipeline of the prompt_handler parser (lines 75-77 and
91-93): strip, remove an opening fence, strip, remove a closing fence,
strip. -/
def ph_clean (s : String) : List Char :=
  pyStrip (stripFenceClose (pyStrip (stripFenceOpen (pyStrip s.data))))

/-- The list-branch loop of lines 73-82: each content block yields the
dict's `text` value defaulting to the dict itself, or str() of a
non-dict; that value is cleaned and `json.loads` tried, stopping at
the first success.  `Except.error ()` models the uncaught
AttributeError of `.strip()` on a non-string value; `Except.ok none`
models the loop ending with no successful parse. -/
def ph_scan_blocks : List PyVal → Except Unit (Option Json)
  | [] => Except.ok none
  | x :: xs =>
    match (match x with
           | PyVal.dict fs => (pyLookup fs "text").getD (PyVal.dict fs)
           | v => PyVal.str (pyStr v)) with
    | PyVal.str s =>
      match jsonLoadsList (ph_clean s) with
      | some v => Except.ok (some v)
      | none => ph_scan_blocks xs
    | _ => Except.error ()

/-- prompt_handler's `parse_blockchain_prompt_with_claude` on the
oracle LLM result: the parsed value is returned as-is, so a non-object
JSON reply comes back as that non-object.  On the list branch the
first successfully parsed block's value is returned, except that a
parse producing JSON null leaves Python's `cleaned_json` equal to None
and the `cleaned_json is not None` test at line 83 then routes to the
empty dict, as does a loop with no successful parse. -/
def ph_parse_blockchain_prompt_with_claude (result : PyVal) :
    Except Unit Json :=
  match result with
  | PyVal.list xs =>
    match ph_scan_blocks xs with
    | Except.error _ => Except.error ()
    | Except.ok (some Json.null) => Except.ok (Json.obj [])
    | Except.ok (some v) => Except.ok v
    | Except.ok none => Except.ok (Json.obj [])
  | _ =>
    if pyFalsy result then Except.ok (Json.obj [])
    else
      Except.ok ((jsonLoadsList (ph_clean (match result with
        | PyVal.str s => s
        | v => pyStr v))).getD (Json.obj []))

example : ph_parse_blockchain_prompt_with_claude (PyVal.str "[1, 2]") =
    Except.ok (Json.arr [Json.num 1, Json.num 2]) := rfl

example : ph_parse_blockchain_prompt_with_claude
    (PyVal.str "noise \x7b\"a\":1\x7d") = Except.ok (Json.obj []) := rfl

example : ph_parse_blockchain_prompt_with_claude
    (PyVal.list [PyVal.dict [("type", PyVal.str "tool_use")]]) =
    Except.error () := rfl

example : ph_parse_blockchain_prompt_with_claude
    (PyVal.list [PyVal.str "zzz", PyVal.dict [("text", PyVal.str "\x7b\"a\":1\x7d")]]) =
    Except.ok (Json.obj [("a", Json.num 1)]) := rfl

example : ph_parse_blockchain_prompt_with_claude (PyVal.list [PyVal.str "null"]) =
    Except.ok (Json.obj []) := rfl

/-! ## Intent routing (claim C4)

`map_intent_to_tool_llm` (ton_agent/app.py lines 264-307) asks the LLM
for a tool name and resolves the reply against the catalog; the LLM
reply is the oracle argument, and the catalog is the list of tool names
in dict-iteration order.  `Except.error ()` models the uncaught
`IndexError` that `result.strip().split()[0]` raises on a reply with no
non-whitespace characters. -/

def pySplitGo (acc : List Char) : List Char → List (List Char)
  | [] => if acc.isEmpty then [] else [acc.reverse]
  | c :: cs =>
    if pyWs c then
      if acc.isEmpty then pySplitGo [] cs else acc.reverse :: pySplitGo [] cs
    else pySplitGo (c :: acc) cs

/-- Python `str.split()` with no separator: split on whitespace runs and
drop empty pieces. -/
def pySplit (s : List Char) : List (List Char) := pySplitGo [] s

/-- Contiguous-substring test, Python `a in b` on strings. -/
def isSubstrList (a : List Char) : List Char → Bool
  | [] => a.isEmpty
  | c :: cs => a.isPrefixOf (c :: cs) || isSubstrList a cs

/-- The case-insensitive either-direction substring test of the router
(ton_agent/app.py line 304). -/
def ciSubMatch (tool_name name : String) : Bool :=
  let tn := tool_name.data.map Char.toLower
  let nm := name.data.map Char.toLower
  isSubstrList tn nm || isSubstrList nm tn

def map_intent_to_tool_llm (result : PyVal) (tool_names : List String) :
    Except Unit (Option String) :=
  match blockText result with
  | none => Except.ok none
  | some s =>
    match pySplit s.data with
    | [] => Except.error ()
    | tok :: _ =>
      let tool_name := String.mk tok
      if tool_name ∈ tool_names then Except.ok (some tool_name)
      else
        match tool_names.find? (fun name => ciSubMatch tool_name name) with
        | some name => Except.ok (some name)
        | none => Except.ok none

example :
    map_intent_to_tool_llm (PyVal.str "analyze_address")
      ["analyze_address", "get_transaction_details"] =
      Except.ok (some "analyze_address") := rfl

example :
    map_intent_to_tool_llm (PyVal.str "Analyze extra words")
      ["analyze_address", "get_transaction_details"] =
      Except.ok (some "analyze_address") := rfl

example :
    map_intent_to_tool_llm (PyVal.str "zzz")
      ["analyze_address"] = Except.ok none := rfl

example : map_intent_to_tool_llm (PyVal.str "  ") ["analyze_address"] =
    Except.error () := rfl

example : map_intent_to_tool_llm (PyVal.dict [("error", PyVal.str "overloaded")])
    ["analyze_address"] = Except.ok none := rfl

/-! ## Fallback heuristic decision (claim C6)

Embedding of ton_agent/app.py lines 376-400: once the fallback branch
has computed the (possibly absent) regex-extracted `address` and
`tx_hash`, an if-chain decides the single operation.  The router result
`tool_key` and the string shape of the parsed value are the other
inputs of the chain. -/

structure FallbackChoice where
  tool : String
  args : List (String × String)
deriving DecidableEq

/-- Whether the router hint or the string-shaped parsed value names the
address-based operation (the two disjuncts of line 379). -/
def addrHint (tool_key : Option String) (parsedStr : Option String) : Bool :=
  tool_key == some "analyze_address"
    || (match parsedStr with
        | some s => String.mk (pyStrip s.data) == "analyze_address"
        | none => false)

/-- Whether the router hint or the string-shaped parsed value names the
hash-based operation (the two disjuncts of line 383). -/
def txHint (tool_key : Option String) (parsedStr : Option String) : Bool :=
  tool_key == some "get_transaction_details"
    || (match parsedStr with
        | some s => String.mk (pyStrip s.data) == "get_transaction_details"
        | none => false)

/-- The if-chain of lines 379-397: at most one operation with its
arguments, `none` when the else-branch aborts. -/
def fallback_decide (tool_key parsedStr address tx_hash : Option String) :
    Option FallbackChoice :=
  if addrHint tool_key parsedStr && address.isSome then
    some ⟨"analyze_address", [("address", address.getD "")]⟩
  else if txHint tool_key parsedStr && tx_hash.isSome then
    some ⟨"get_transaction_details", [("tx_hash", tx_hash.getD "")]⟩
  else if address.isSome then
    some ⟨"analyze_address", [("address", address.getD "")]⟩
  else if tx_hash.isSome then
    some ⟨"get_transaction_details", [("tx_hash", tx_hash.getD "")]⟩
  else none

/-- The error line yielded by the else-branch at line 396. -/
def ERR_NO_ADDR : String :=
  "[ERROR] No address or transaction hash found in prompt or session history, aborting."

inductive FallbackOutcome where
  | abort (line : String) : FallbackOutcome
  | proceed (choice : FallbackChoice) : FallbackOutcome
deriving DecidableEq

/-- Outcome of the fallback section: the decided tool call, or the
terminating error line with no tool call attempted (the generator
returns right after yielding it). -/
def fallback_outcome (tool_key parsedStr address tx_hash : Option String) :
    FallbackOutcome :=
  match fallback_decide tool_key parsedStr address tx_hash with
  | some c => FallbackOutcome.proceed c
  | none => FallbackOutcome.abort ERR_NO_ADDR

/-! ## Conversation history store (claim C7)

Embedding of `append_session_history` and `get_session_history`
(ton_agent/app.py lines 102-110).  The module-level `SESSION_HISTORY`
dict is modelled as an association list from session key to entry list;
the entry type is a parameter. -/

def SESSION_HISTORY_MAXLEN : Nat := 5

/-- Lookup in the store, `None` when the key is unknown. -/
def histGet {E : Type} (st : List (String × List E)) (sid : String) :
    Option (List E) :=
  pyLookup st sid

/-- Store update (Python dict assignment). -/
def histSet {E : Type} : List (String × List E) → String → List E →
    List (String × List E) :=
  upsert

/-- `append_session_history`: create the key when missing, append at the
tail, and when the length exceeds the capacity keep only the last
`SESSION_HISTORY_MAXLEN` entries. -/
def append_session_history {E : Type} (st : List (String × List E))
    (sid : String) (e : E) : List (String × List E) :=
  let cur := (histGet st sid).getD []
  let h := cur ++ [e]
  let h2 := if SESSION_HISTORY_MAXLEN < h.length
            then h.drop (h.length - SESSION_HISTORY_MAXLEN) else h
  histSet st sid h2

/-- `get_session_history`: the stored sequence, empty for an unknown
key. -/
def get_session_history {E : Type} (st : List (String × List E))
    (sid : String) : List E :=
  (histGet st sid).getD []

/-- Apply a sequence of appends to a store. -/
def apply_appends {E : Type} (st : List (String × List E)) :
    List (String × E) → List (String × List E)
  | [] => st
  | p :: rest => apply_appends (append_session_history st p.1 p.2) rest

example :
    get_session_history
      (apply_appends ([] : List (String × List Nat))
        [("s", 1), ("s", 2), ("s", 3), ("s", 4), ("s", 5), ("s", 6), ("s", 7)])
      "s" = [3, 4, 5, 6, 7] := rfl

/-! ## Tool-catalog cache (claims C8 and C10)

Embedding of `get_mcp_tools` (ton_agent/app.py lines 58-75).  The
module-level cache pair is the state; the wall clock and the outcome of
the HTTP fetch are oracle inputs.  A tool descriptor is modelled by its
name and description. -/

structure Tool where
  name : String
  description : String
deriving DecidableEq

structure CacheState where
  cache : Option (List (String × Tool))
  time : Int
deriving DecidableEq

def MCP_TOOLS_CACHE_TTL : Int := 300

/-- The check-and-use condition at line 62: the cached dict must be
truthy (present and non-empty) and younger than the TTL. -/
def cacheFresh (st : CacheState) (now : Int) : Bool :=
  (match st.cache with
   | some m => !m.isEmpty
   | none => false) && decide (now - st.time < MCP_TOOLS_CACHE_TTL)

/-- The dict comprehension at line 69, keyed by tool name. -/
def mkToolMap (tools : List Tool) : List (String × Tool) :=
  tools.foldl (fun m t => upsert m t.name t) []

/-- `get_mcp_tools`: return the fresh cache, else fetch; on success the
cache and its timestamp are replaced, on any exception the function
returns the empty mapping and the state is left untouched. -/
def get_mcp_tools (st : CacheState) (now : Int)
    (fetch : Except Unit (List Tool)) :
    List (String × Tool) × CacheState :=
  if cacheFresh st now then (st.cache.getD [], st)
  else
    match fetch with
    | Except.ok tools =>
      let m := mkToolMap tools
      (m, ⟨some m, now⟩)
    | Except.error _ => ([], st)

/-! ## Claude call retry policy (claim C9)

Embedding of the double loop of `call_claude` (ton_agent/app.py lines
146-187).  The network is the oracle `resp`, indexed by model name and
attempt number; context building (project context, session history) has
no effect on the control flow modelled here. -/

inductive ClaudeResp where
  | ok (content : PyVal) : ClaudeResp
  | httpErr (status : Nat) : ClaudeResp
  | exc : ClaudeResp

inductive ClaudeOutcome where
  | content (c : PyVal) : ClaudeOutcome
  | overloadedAll (status : Nat) : ClaudeOutcome
  | apiError (status : Nat) : ClaudeOutcome
  | requestFailed : ClaudeOutcome
  | allModelsFailed : ClaudeOutcome

def CLAUDE_MODEL_1 : String := "claude-3-7-sonnet-latest"
def CLAUDE_MODEL_2 : String := "claude-3-5-sonnet-20241022"

/-- The overload statuses retried at line 169. -/
def isOverload (s : Nat) : Bool := s == 529 || s == 429 || s == 503

inductive ModelRunResult where
  | done (o : ClaudeOutcome) : ModelRunResult
  | nextModel (status : Nat) : ModelRunResult

/-- One model's attempt loop (`for attempt in range(retries + 1)`).
`left` is the number of attempts still allowed including the current
one, so `attempt < retries` is `0 < left - 1`; the result records the
attempt numbers actually issued.  `nextModel` models the `break` that
moves on to the fallback model when the first model's retries are
exhausted on an overload status. -/
def run_model_attempts (resp : Nat → ClaudeResp) (first : Bool) :
    Nat → Nat → ModelRunResult × List Nat
  | 0, _ => (ModelRunResult.nextModel 0, [])
  | left+1, attempt =>
    match resp attempt with
    | ClaudeResp.ok c => (ModelRunResult.done (ClaudeOutcome.content c), [attempt])
    | ClaudeResp.exc => (ModelRunResult.done ClaudeOutcome.requestFailed, [attempt])
    | ClaudeResp.httpErr s =>
      if isOverload s then
        if 0 < left then
          let r := run_model_attempts resp first left (attempt+1)
          (r.1, attempt :: r.2)
        else if first then (ModelRunResult.nextModel s, [attempt])
        else (ModelRunResult.done (ClaudeOutcome.overloadedAll s), [attempt])
      else (ModelRunResult.done (ClaudeOutcome.apiError s), [attempt])

/-- `call_claude`: try the default model, then the fallback model, each
under the same retry policy; the returned list is the sequence of
(model, attempt) calls actually issued. -/
def call_claude (resp : String → Nat → ClaudeResp) (retries : Nat) :
    ClaudeOutcome × List (String × Nat) :=
  match run_model_attempts (resp CLAUDE_MODEL_1) true (retries+1) 0 with
  | (ModelRunResult.done o, as) => (o, as.map (fun a => (CLAUDE_MODEL_1, a)))
  | (ModelRunResult.nextModel _, as) =>
    let tr1 := as.map (fun a => (CLAUDE_MODEL_1, a))
    match run_model_attempts (resp CLAUDE_MODEL_2) false (retries+1) 0 with
    | (ModelRunResult.done o, bs) => (o, tr1 ++ bs.map (fun a => (CLAUDE_MODEL_2, a)))
    | (ModelRunResult.nextModel _, bs) =>
      (ClaudeOutcome.allModelsFailed, tr1 ++ bs.map (fun a => (CLAUDE_MODEL_2, a)))

example :
    (call_claude (fun _ _ => ClaudeResp.httpErr 529) 1).2 =
      [(CLAUDE_MODEL_1, 0), (CLAUDE_MODEL_1, 1),
       (CLAUDE_MODEL_2, 0), (CLAUDE_MODEL_2, 1)] := rfl

example :
    (call_claude (fun _ _ => ClaudeResp.httpErr 500) 1).2 =
      [(CLAUDE_MODEL_1, 0)] := rfl

/-! ## SSE worker (claim C3)

Embedding of `sse_session_and_stream` (ton_agent/app.py lines 236-262):
the worker reads server-sent events off one long-lived connection,
publishes every extracted session id to the session-id queue, and
pushes the data of qualifying events onto the message queue.  The event
stream is the oracle input; the two queues are the two returned lists,
in push order. -/

structure SSEEvent where
  event : String
  data : String

/-- Python truthiness of an optional string (`if session_id:`). -/
def pyTruthyStr : Option String → Bool
  | some s => !s.isEmpty
  | none => false

/-- Python `"session_id=" in data`. -/
def hasSessionMarker (data : String) : Bool :=
  isSubstrList "session_id=".data data.data

/-- Suffix after the last occurrence of the pattern, when it occurs. -/
def afterLastGo (pat : List Char) : List Char → Option (List Char)
  | [] => if pat.isEmpty then some [] else none
  | c :: cs =>
    match afterLastGo pat cs with
    | some r => some r
    | none =>
      if pat.isPrefixOf (c :: cs) then some ((c :: cs).drop pat.length)
      else none

/-- Python `data.split("session_id=")[-1]`: everything after the last
occurrence of the marker (the callers guard on `hasSessionMarker`). -/
def afterSessionMarker (data : String) : String :=
  String.mk ((afterLastGo "session_id=".data data.data).getD data.data)

/-- Whether an event's data parses as a JSON object.  Only then does
the worker's `msg.get("session_id")` attribute access at
ton_agent/app.py line 254 succeed; when `json.loads` yields any
non-dict value (array, number, string, boolean, null) that access
raises AttributeError inside the try-block and the except branch drops
the event without pushing it. -/
def parsesAsObj (data : String) : Bool :=
  match jsonLoads data with
  | some (Json.obj _) => true
  | _ => false

/-- The worker's event loop with the running session-id state: returns
(session-id queue, message queue).  A `message` event is pushed only
when its data parses as a JSON object: the try-block at lines 252-256
reaches `message_queue.put` only after `msg.get("session_id")`
succeeds, and that attribute access raises on every non-dict parse
result, landing in the except branch that merely logs the event. -/
def sse_worker_go : Option String → List SSEEvent → List String × List String
  | _, [] => ([], [])
  | sid, e :: es =>
    if e.event == "endpoint" && hasSessionMarker e.data then
      let s := afterSessionMarker e.data
      let r := sse_worker_go (some s) es
      (s :: r.1, r.2)
    else if e.event == "message" && pyTruthyStr sid then
      match jsonLoads e.data with
      | some (Json.obj _) =>
        let r := sse_worker_go sid es
        (r.1, e.data :: r.2)
      | _ => sse_worker_go sid es
    else sse_worker_go sid es

def sse_session_and_stream (events : List SSEEvent) : List String × List String :=
  sse_worker_go none events

example :
    sse_session_and_stream
      [⟨"endpoint", "/messages/?session_id=abc"⟩,
       ⟨"message", "\x7b\"jsonrpc\": \"2.0\"\x7d"⟩] =
      (["abc"], ["\x7b\"jsonrpc\": \"2.0\"\x7d"]) := rfl

/-! ## The bridge section of `async_analyze_prompt` (claims C1 and C2)

Trace model of ton_agent/app.py lines 423-518: the section entered once
a tool and its arguments are resolved.  Network interactions are the
oracle; `none` for a POST result models an exception escaping that
call.  The record tracks whether the worker's stop flag was set and the
worker thread joined before the generator finished, whether an
exception escaped the generator, and whether the `tools/call` POST was
issued. -/

inductive OutLine where
  | callingTool (tool_key : String) : OutLine
  | mcpConnecting : OutLine
  | errNoSessionId : OutLine
  | usingSessionId (sid : String) : OutLine
  | initStatus (s : Nat) : OutLine
  | notifStatus (s : Nat) : OutLine
  | callingTool2 (name : String) : OutLine
  | mcpRespStatus (s : Nat) : OutLine
  | mcpSse (data : String) : OutLine
  | errSseTimeout : OutLine
  | errMcpCallFailed : OutLine
deriving DecidableEq

structure BridgeOracle where
  sessionId : Option String
  initResult : Option Nat
  notifResult : Option Nat
  toolCallResult : Option Nat
  queueGets : List (Option String)

structure BridgeRun where
  outputs : List OutLine
  stopSet : Bool
  joined : Bool
  raised : Bool
  toolCallAttempted : Bool
deriving DecidableEq

/-- The result-relay loop of lines 491-506: read from the message queue
up to ten times, yield each item as an `[MCP SSE]` line, and on a read
timeout yield an error line and stop.  An exhausted oracle list models
the wall-clock budget ending.  Returns the yielded lines and the list
of received items. -/
def relay_loop : List (Option String) → Nat → List OutLine × List String
  | _, 0 => ([], [])
  | [], _ => ([], [])
  | g :: rest, b+1 =>
    match g with
    | some d =>
      let r := relay_loop rest b
      (OutLine.mcpSse d :: r.1, d :: r.2)
    | none => ([OutLine.errSseTimeout], [])

/-- The bridge section.  On the session-id timeout path (lines 440-445)
the stop flag is set and the thread joined; the handshake POSTs (lines
460-469) run outside any try-block, so an exception there escapes the
generator; the `tools/call` POST and the relay loop sit inside the
try-block whose handler (lines 516-518) yields an error line; after the
relay loop the generator simply ends. -/
def bridge_run (tool_key tool_name : String) (o : BridgeOracle) : BridgeRun :=
  let pre : List OutLine := [OutLine.callingTool tool_key, OutLine.mcpConnecting]
  match o.sessionId with
  | none =>
    { outputs := pre ++ [OutLine.errNoSessionId],
      stopSet := true, joined := true, raised := false, toolCallAttempted := false }
  | some sid =>
    let pre2 := pre ++ [OutLine.usingSessionId sid]
    match o.initResult with
    | none =>
      { outputs := pre2, stopSet := false, joined := false, raised := true,
        toolCallAttempted := false }
    | some st1 =>
      let pre3 := pre2 ++ [OutLine.initStatus st1]
      match o.notifResult with
      | none =>
        { outputs := pre3, stopSet := false, joined := false, raised := true,
          toolCallAttempted := false }
      | some st2 =>
        let pre4 := pre3 ++ [OutLine.notifStatus st2, OutLine.callingTool2 tool_name]
        match o.toolCallResult with
        | none =>
          { outputs := pre4 ++ [OutLine.errMcpCallFailed],
            stopSet := false, joined := false, raised := false,
            toolCallAttempted := true }
        | some st3 =>
          let r := relay_loop o.queueGets 10
          { outputs := pre4 ++ [OutLine.mcpRespStatus st3] ++ r.1,
            stopSet := false, joined := false, raised := false,
            toolCallAttempted := true }

/-! ## The prompt_handler bridge (claim C1)

Flag-level model of prompt_handler/app.py lines 133-205: same worker
and handshake, but every per-address tool call is wrapped in a
try/except that continues the loop, and lines 204-205 set the stop flag
and join the worker after the loop. -/

structure PhRun where
  stopSet : Bool
  joined : Bool
  raised : Bool
deriving DecidableEq

def ph_bridge_run (o : BridgeOracle) : PhRun :=
  match o.sessionId with
  | none => ⟨true, true, false⟩
  | some _ =>
    match o.initResult with
    | none => ⟨false, false, true⟩
    | some _ =>
      match o.notifResult with
      | none => ⟨false, false, true⟩
      | some _ => ⟨true, true, false⟩

/-! ## The example client's handshake (context for claim C2)

`mcp_handshake_and_tool_call` in clients/python_client.py lines 108-165
is the one place in the repository that checks the `initialize` status:
anything other than 202 returns before any `tools/call` POST. -/

def client_tool_calls_sent (initStatus : Nat) (addresses : List String) : Nat :=
  if initStatus ≠ 202 then 0 else addresses.length

/-! ## Concrete oracles and spec-side characterizations used by the
claim theorems -/

/-- A normally completing bridge run: session id acquired, handshake
and tool call succeed, one result relayed. -/
def normalRunOracle : BridgeOracle :=
  ⟨some "abc", some 202, some 202, some 202, [some "r"]⟩

/-- A bridge run whose `initialize` POST returns HTTP 500 while
everything else succeeds. -/
def badInitOracle : BridgeOracle :=
  ⟨some "abc", some 500, some 202, some 202, []⟩

/-- A network oracle that answers every first attempt with HTTP 429 and
every retry with success. -/
def respW : String → Nat → ClaudeResp := fun _ a =>
  if a == 0 then ClaudeResp.httpErr 429 else ClaudeResp.ok (PyVal.str "ok")

/-- Spec-side characterization of the worker's push rule, written from
the amended claim C3: an event is pushed onto the message queue exactly
when its declared type is `message`, a session id has already been
seen (and is non-empty), and its data parses as a JSON object (any
non-dict parse result raises at the `msg.get` access and the event is
dropped); the session-id state is updated by `endpoint` events carrying
the marker. -/
def pushedSpec : Option String → List SSEEvent → List String
  | _, [] => []
  | sid, e :: es =>
    let sid2 := if e.event == "endpoint" && hasSessionMarker e.data
                then some (afterSessionMarker e.data) else sid
    if (e.event == "message" && pyTruthyStr sid) && parsesAsObj e.data
    then e.data :: pushedSpec sid2 es
    else pushedSpec sid2 es

/-- A code-fenced LLM extraction reply wrapped in a content-block
list. -/
def fencedReply : String :=
  "\x60\x60\x60json\n\x7b\"addresses\":[\"X\"]\x7d\x60\x60\x60"

/-! ## Helper lemmas -/

theorem pyLookup_upsert {V : Type} (st : List (String × V)) (k : String) (v : V)
    (k2 : String) :
    pyLookup (upsert st k v) k2 = if k = k2 then some v else pyLookup st k2 := by
  induction st with
  | nil => simp [upsert, pyLookup]
  | cons p rest ih =>
    by_cases hp : p.1 = k <;> by_cases hk : k = k2 <;>
      simp_all [upsert, pyLookup]

theorem find_first_decomp {α : Type} (p : α → Bool) :
    ∀ (l : List α) (x : α), l.find? p = some x →
      p x = true ∧ ∃ l1 l2, l = l1 ++ x :: l2 ∧ ∀ m ∈ l1, p m = false := by
  intro l
  induction l with
  | nil => intro x h; simp [List.find?] at h
  | cons a l ih =>
    intro x h
    by_cases ha : p a
    · rw [List.find?_cons_of_pos _ ha] at h
      cases h
      exact ⟨ha, [], l, rfl, by simp⟩
    · rw [List.find?_cons_of_neg _ (by simpa using ha)] at h
      obtain ⟨hx, l1, l2, hl, hall⟩ := ih x h
      exact ⟨hx, a :: l1, l2, by simp [hl], by
        intro m hm
        rcases List.mem_cons.mp hm with h1 | h1
        · simpa [h1] using ha
        · exact hall m h1⟩

theorem get_session_history_append {E : Type} (st : List (String × List E))
    (sid : String) (e : E) (k : String) :
    get_session_history (append_session_history st sid e) k =
      if sid = k then
        (if SESSION_HISTORY_MAXLEN < (get_session_history st sid ++ [e]).length
         then (get_session_history st sid ++ [e]).drop
                ((get_session_history st sid ++ [e]).length - SESSION_HISTORY_MAXLEN)
         else get_session_history st sid ++ [e])
      else get_session_history st k := by
  by_cases hk : sid = k <;>
    simp [get_session_history, append_session_history, histGet, histSet,
      pyLookup_upsert, hk]

theorem append_session_history_bound {E : Type} (st : List (String × List E))
    (sid : String) (e : E)
    (h : ∀ k, (get_session_history st k).length ≤ SESSION_HISTORY_MAXLEN) :
    ∀ k, (get_session_history (append_session_history st sid e) k).length ≤
      SESSION_HISTORY_MAXLEN := by
  intro k
  rw [get_session_history_append]
  by_cases hk : sid = k
  · subst hk
    rw [if_pos rfl]
    by_cases hlen : SESSION_HISTORY_MAXLEN <
        (get_session_history st sid ++ [e]).length
    · rw [if_pos hlen]
      simp only [List.length_drop]
      omega
    · rw [if_neg hlen]
      simp only [List.length_append, List.length_cons, List.length_nil] at hlen ⊢
      omega
  · simp only [if_neg hk]
    exact h k

theorem apply_appends_bound {E : Type} :
    ∀ (ops : List (String × E)) (st : List (String × List E)),
      (∀ k, (get_session_history st k).length ≤ SESSION_HISTORY_MAXLEN) →
      ∀ k, (get_session_history (apply_appends st ops) k).length ≤
        SESSION_HISTORY_MAXLEN := by
  intro ops
  induction ops with
  | nil => intro st h k; exact h k
  | cons p rest ih =>
    intro st h k
    exact ih _ (append_session_history_bound st p.1 p.2 h) k

/-! ## Claim theorems -/

/-- C7: for every session key and every sequence of appends to the
conversation history store, the stored sequence never exceeds the fixed
capacity 5; appending 7 entries leaves exactly the 5 most recent in
oldest-first order; reading an unknown key returns the empty
sequence. -/
theorem C7_history_store :
    (∀ (ops : List (String × Nat)) (k : String),
      (get_session_history (apply_appends ([] : List (String × List Nat)) ops) k).length ≤
        SESSION_HISTORY_MAXLEN) ∧
    get_session_history
      (apply_appends ([] : List (String × List Nat))
        [("s", 1), ("s", 2), ("s", 3), ("s", 4), ("s", 5), ("s", 6), ("s", 7)])
      "s" = [3, 4, 5, 6, 7] ∧
    get_session_history ([] : List (String × List Nat)) "unknown" = [] :=
  ⟨fun ops k => apply_appends_bound ops [] (fun _ => by simp [get_session_history, histGet, pyLookup]) k,
   rfl, rfl⟩

/-- C8: when a catalog refresh is attempted, a failed fetch makes
`get_mcp_tools` return the empty mapping instead of raising, and a
successful fetch returns the freshly built name-to-descriptor mapping
and installs it, with its timestamp, as the new cache. -/
theorem C8_catalog_fetch (st : CacheState) (now : Int) (tools : List Tool)
    (h : cacheFresh st now = false) :
    (get_mcp_tools st now (Except.error ())).1 = [] ∧
    (get_mcp_tools st now (Except.ok tools)).1 = mkToolMap tools ∧
    (get_mcp_tools st now (Except.ok tools)).2 =
      { cache := some (mkToolMap tools), time := now } := by
  simp [get_mcp_tools, h]

theorem C8_catalog_fetch_witness :
    cacheFresh ⟨none, 0⟩ 0 = false ∧
    ((get_mcp_tools ⟨none, 0⟩ 0 (Except.error ())).1 = [] ∧
     (get_mcp_tools ⟨none, 0⟩ 0 (Except.ok [⟨"analyze_address", "d"⟩])).1 =
       mkToolMap [⟨"analyze_address", "d"⟩] ∧
     (get_mcp_tools ⟨none, 0⟩ 0 (Except.ok [⟨"analyze_address", "d"⟩])).2 =
       { cache := some (mkToolMap [⟨"analyze_address", "d"⟩]), time := 0 }) :=
  ⟨rfl, C8_catalog_fetch ⟨none, 0⟩ 0 [⟨"analyze_address", "d"⟩] rfl⟩

/-- C10: when a catalog refresh is attempted (cache empty or expired)
and the fetch fails, `get_mcp_tools` leaves the module-level cache state
unchanged: the previously cached mapping and its timestamp keep their
prior values. -/
theorem C10_cache_unchanged (st : CacheState) (now : Int)
    (h : cacheFresh st now = false) :
    (get_mcp_tools st now (Except.error ())).2 = st := by
  simp [get_mcp_tools, h]

theorem C10_cache_unchanged_witness :
    cacheFresh ⟨some [("t", ⟨"t", "d"⟩)], 0⟩ 1000 = false ∧
    (get_mcp_tools ⟨some [("t", ⟨"t", "d"⟩)], 0⟩ 1000 (Except.error ())).2 =
      ⟨some [("t", ⟨"t", "d"⟩)], 0⟩ :=
  ⟨rfl, C10_cache_unchanged ⟨some [("t", ⟨"t", "d"⟩)], 0⟩ 1000 rfl⟩

/-- C6: the fallback decision resolves exactly one operation by
priority: an address-naming hint plus a found address gives
`analyze_address` on that address; else a hash-naming hint plus a found
hash gives `get_transaction_details` on that hash; else a found address
is preferred over a hash; and when neither an address nor a hash was
found the outcome is the single error line with no tool call. -/
theorem C6_fallback_priority (tk ps addr tx : Option String) :
    (∀ a, addrHint tk ps = true → addr = some a →
      fallback_outcome tk ps addr tx =
        FallbackOutcome.proceed ⟨"analyze_address", [("address", a)]⟩) ∧
    (∀ h, (addrHint tk ps = false ∨ addr = none) → txHint tk ps = true →
      tx = some h →
      fallback_outcome tk ps addr tx =
        FallbackOutcome.proceed ⟨"get_transaction_details", [("tx_hash", h)]⟩) ∧
    (∀ a, addrHint tk ps = false → (txHint tk ps = false ∨ tx = none) →
      addr = some a →
      fallback_outcome tk ps addr tx =
        FallbackOutcome.proceed ⟨"analyze_address", [("address", a)]⟩) ∧
    (∀ h, addr = none → tx = some h →
      fallback_outcome tk ps addr tx =
        FallbackOutcome.proceed ⟨"get_transaction_details", [("tx_hash", h)]⟩) ∧
    (addr = none → tx = none →
      fallback_outcome tk ps addr tx = FallbackOutcome.abort ERR_NO_ADDR) := by
  refine ⟨?_, ?_, ?_, ?_, ?_⟩
  · intro a h1 h2
    simp [fallback_outcome, fallback_decide, h1, h2]
  · intro h h1 h2 h3
    rcases h1 with h1 | h1 <;>
      simp [fallback_outcome, fallback_decide, h1, h2, h3]
  · intro a h1 h2 h3
    rcases h2 with h2 | h2 <;>
      simp [fallback_outcome, fallback_decide, h1, h2, h3]
  · intro h h1 h2
    by_cases ht : txHint tk ps <;>
      simp [fallback_outcome, fallback_decide, h1, h2, ht]
  · intro h1 h2
    simp [fallback_outcome, fallback_decide, h1, h2]

theorem C6_fallback_priority_witness :
    addrHint (some "analyze_address") none = true ∧
    fallback_outcome (some "analyze_address") none (some "UQaddr") none =
      FallbackOutcome.proceed ⟨"analyze_address", [("address", "UQaddr")]⟩ ∧
    fallback_outcome none none none none = FallbackOutcome.abort ERR_NO_ADDR :=
  ⟨rfl,
   (C6_fallback_priority (some "analyze_address") none (some "UQaddr") none).1
     "UQaddr" rfl rfl,
   (C6_fallback_priority none none none none).2.2.2.2 rfl rfl⟩

/-- C9: Claude calls retry once on an overload status (429, 503, 529)
on the same model, move to the fallback model when the first model's
retries are exhausted, report an overload error only after both models
and their retries are exhausted, and abort immediately on any
non-overload HTTP error. -/
theorem C9_retry_policy (resp : String → Nat → ClaudeResp) :
    (∀ s, isOverload s = false → resp CLAUDE_MODEL_1 0 = ClaudeResp.httpErr s →
      call_claude resp 1 = (ClaudeOutcome.apiError s, [(CLAUDE_MODEL_1, 0)])) ∧
    (∀ s c, isOverload s = true → resp CLAUDE_MODEL_1 0 = ClaudeResp.httpErr s →
      resp CLAUDE_MODEL_1 1 = ClaudeResp.ok c →
      call_claude resp 1 =
        (ClaudeOutcome.content c, [(CLAUDE_MODEL_1, 0), (CLAUDE_MODEL_1, 1)])) ∧
    (∀ s1 s2 c, isOverload s1 = true → isOverload s2 = true →
      resp CLAUDE_MODEL_1 0 = ClaudeResp.httpErr s1 →
      resp CLAUDE_MODEL_1 1 = ClaudeResp.httpErr s2 →
      resp CLAUDE_MODEL_2 0 = ClaudeResp.ok c →
      call_claude resp 1 =
        (ClaudeOutcome.content c,
         [(CLAUDE_MODEL_1, 0), (CLAUDE_MODEL_1, 1), (CLAUDE_MODEL_2, 0)])) ∧
    (∀ s, (call_claude resp 1).1 = ClaudeOutcome.overloadedAll s →
      (∃ s1, resp CLAUDE_MODEL_1 0 = ClaudeResp.httpErr s1 ∧ isOverload s1 = true) ∧
      (∃ s2, resp CLAUDE_MODEL_1 1 = ClaudeResp.httpErr s2 ∧ isOverload s2 = true) ∧
      (∃ s3, resp CLAUDE_MODEL_2 0 = ClaudeResp.httpErr s3 ∧ isOverload s3 = true) ∧
      resp CLAUDE_MODEL_2 1 = ClaudeResp.httpErr s ∧ isOverload s = true ∧
      (call_claude resp 1).2 =
        [(CLAUDE_MODEL_1, 0), (CLAUDE_MODEL_1, 1),
         (CLAUDE_MODEL_2, 0), (CLAUDE_MODEL_2, 1)]) := by
  refine ⟨?_, ?_, ?_, ?_⟩
  · intro s hs h0
    simp [call_claude, run_model_attempts, h0, hs]
  · intro s c hs h0 h1
    simp [call_claude, run_model_attempts, h0, h1, hs]
  · intro s1 s2 c hs1 hs2 h0 h1 h2
    simp [call_claude, run_model_attempts, h0, h1, h2, hs1, hs2]
  · intro s hout
    rcases h0 : resp CLAUDE_MODEL_1 0 with c0 | s0 | _ <;>
      simp [call_claude, run_model_attempts, h0] at hout ⊢
    by_cases ho0 : isOverload s0 = true
    · rcases h1 : resp CLAUDE_MODEL_1 1 with c1 | s1 | _ <;>
        simp [call_claude, run_model_attempts, h0, h1, ho0] at hout ⊢
      by_cases ho1 : isOverload s1 = true
      · rcases h2 : resp CLAUDE_MODEL_2 0 with c2 | s2 | _ <;>
          simp [call_claude, run_model_attempts, h0, h1, h2, ho0, ho1] at hout ⊢
        by_cases ho2 : isOverload s2 = true
        · rcases h3 : resp CLAUDE_MODEL_2 1 with c3 | s3 | _ <;>
            simp [call_claude, run_model_attempts, h0, h1, h2, h3, ho0, ho1, ho2]
              at hout ⊢
          by_cases ho3 : isOverload s3 = true
          · simp [ho3] at hout
            simp_all
          · simp [ho3] at hout
        · simp [ho2] at hout
      · simp [ho1] at hout
    · simp [ho0] at hout

theorem C9_retry_policy_witness :
    isOverload 429 = true ∧ respW CLAUDE_MODEL_1 0 = ClaudeResp.httpErr 429 ∧
    respW CLAUDE_MODEL_1 1 = ClaudeResp.ok (PyVal.str "ok") ∧
    call_claude respW 1 =
      (ClaudeOutcome.content (PyVal.str "ok"),
       [(CLAUDE_MODEL_1, 0), (CLAUDE_MODEL_1, 1)]) :=
  ⟨rfl, rfl, rfl, (C9_retry_policy respW).2.1 429 (PyVal.str "ok") rfl rfl rfl⟩

/-- C1 counterexample: a run of ton_agent's bridge that completes
normally (session id acquired, handshake and tool call succeed, one
result relayed, no exception) returns with the worker's stop flag not
set and the worker thread not joined; this refutes teardown on every
completion path. -/
theorem C1_counterexample :
    (bridge_run "analyze_address" "analyze_address" normalRunOracle).raised = false ∧
    (bridge_run "analyze_address" "analyze_address" normalRunOracle).toolCallAttempted = true ∧
    (bridge_run "analyze_address" "analyze_address" normalRunOracle).stopSet = false ∧
    (bridge_run "analyze_address" "analyze_address" normalRunOracle).joined = false :=
  ⟨rfl, rfl, rfl, rfl⟩

/-- C1 (amended): ton_agent's bridge sets the stop flag and joins the
worker exactly on the session-id-acquisition-timeout path, and on no
other completion path; prompt_handler's bridge additionally stops and
joins the worker on every path on which the handshake POSTs did not
raise, and on no path where they did. -/
theorem C1_teardown (tk tn : String) (o : BridgeOracle) :
    ((bridge_run tk tn o).stopSet = o.sessionId.isNone) ∧
    ((bridge_run tk tn o).joined = o.sessionId.isNone) ∧
    ((ph_bridge_run o).stopSet = !(ph_bridge_run o).raised) ∧
    ((ph_bridge_run o).joined = !(ph_bridge_run o).raised) := by
  rcases o with ⟨sid, ir, nr, tr, qg⟩
  rcases sid with _ | sid <;> rcases ir with _ | st1 <;> rcases nr with _ | st2 <;>
    rcases tr with _ | st3 <;>
    simp [bridge_run, ph_bridge_run]

/-- C2 counterexample: a run in which the `initialize` POST returns
HTTP 500 still issues the `tools/call` POST; the bridge never checks
the initialize status, refuting the 202-required-to-proceed claim. -/
theorem C2_counterexample :
    OutLine.initStatus 500 ∈
      (bridge_run "analyze_address" "analyze_address" badInitOracle).outputs ∧
    (bridge_run "analyze_address" "analyze_address" badInitOracle).toolCallAttempted =
      true := by
  refine ⟨?_, rfl⟩
  simp [bridge_run, badInitOracle, relay_loop]

/-- C2 (amended): the two `async_analyze_prompt` bridges only report
the initialize status into the output stream and never check it; the
`tools/call` POST is issued whenever the session id arrived and the two
handshake POSTs returned without raising, whatever their statuses.  The
202-check exists only in the example client
(`clients/python_client.py`), which aborts before any `tools/call` when
initialize does not return 202. -/
theorem C2_no_status_check (tk tn : String) (o : BridgeOracle) (sid : String)
    (s1 s2 : Nat) (h1 : o.sessionId = some sid) (h2 : o.initResult = some s1)
    (h3 : o.notifResult = some s2) :
    (bridge_run tk tn o).toolCallAttempted = true ∧
    OutLine.initStatus s1 ∈ (bridge_run tk tn o).outputs ∧
    (∀ st addrs, st ≠ 202 → client_tool_calls_sent st addrs = 0) ∧
    (∀ addrs, client_tool_calls_sent 202 addrs = addrs.length) := by
  rcases o with ⟨sid0, ir, nr, tr, qg⟩
  cases h1
  cases h2
  cases h3
  rcases tr with _ | st3 <;>
    refine ⟨rfl, by simp [bridge_run], fun st addrs hst => by
        simp [client_tool_calls_sent, hst],
      fun addrs => by simp [client_tool_calls_sent]⟩

theorem C2_no_status_check_witness :
    (⟨some "s", some 404, some 200, some 200, []⟩ : BridgeOracle).sessionId =
      some "s" ∧
    (⟨some "s", some 404, some 200, some 200, []⟩ : BridgeOracle).initResult =
      some 404 ∧
    (⟨some "s", some 404, some 200, some 200, []⟩ : BridgeOracle).notifResult =
      some 200 ∧
    ((bridge_run "t" "t" ⟨some "s", some 404, some 200, some 200, []⟩).toolCallAttempted =
        true ∧
      OutLine.initStatus 404 ∈
        (bridge_run "t" "t" ⟨some "s", some 404, some 200, some 200, []⟩).outputs ∧
      (∀ st addrs, st ≠ 202 → client_tool_calls_sent st addrs = 0) ∧
      (∀ addrs, client_tool_calls_sent 202 addrs = addrs.length)) :=
  ⟨rfl, rfl, rfl,
   C2_no_status_check "t" "t" ⟨some "s", some 404, some 200, some 200, []⟩
     "s" 404 200 rfl rfl rfl⟩

theorem sse_worker_pushedSpec (events : List SSEEvent) :
    ∀ sid, (sse_worker_go sid events).2 = pushedSpec sid events := by
  induction events with
  | nil => intro sid; rfl
  | cons e es ih =>
    intro sid
    by_cases h1 : (e.event == "endpoint" && hasSessionMarker e.data) = true
    · have h1' : (e.event == "endpoint") = true ∧ hasSessionMarker e.data = true := by
        simpa [Bool.and_eq_true] using h1
      have hev : e.event = "endpoint" := eq_of_beq h1'.1
      simp [sse_worker_go, pushedSpec, h1, h1'.2, hev, ih]
    · by_cases h2 : (e.event == "message" && pyTruthyStr sid) = true
      · cases hj : jsonLoads e.data with
        | some v =>
          rcases v with _ | b | n | s | xs | fs <;>
            simp [sse_worker_go, pushedSpec, parsesAsObj, h1, h2, hj, ih]
        | none => simp [sse_worker_go, pushedSpec, parsesAsObj, h1, h2, hj, ih]
      · simp [sse_worker_go, pushedSpec, h1, h2, ih]

theorem sse_worker_sublist (events : List SSEEvent) :
    ∀ sid, ((sse_worker_go sid events).2).Sublist (events.map (fun e => e.data)) := by
  induction events with
  | nil => intro sid; simp [sse_worker_go]
  | cons e es ih =>
    intro sid
    by_cases h1 : (e.event == "endpoint" && hasSessionMarker e.data) = true
    · simpa [sse_worker_go, h1] using
        (ih (some (afterSessionMarker e.data))).cons e.data
    · by_cases h2 : (e.event == "message" && pyTruthyStr sid) = true
      · cases hj : jsonLoads e.data with
        | some v =>
          rcases v with _ | b | n | s | xs | fs
          · simpa [sse_worker_go, h1, h2, hj] using (ih sid).cons e.data
          · simpa [sse_worker_go, h1, h2, hj] using (ih sid).cons e.data
          · simpa [sse_worker_go, h1, h2, hj] using (ih sid).cons e.data
          · simpa [sse_worker_go, h1, h2, hj] using (ih sid).cons e.data
          · simpa [sse_worker_go, h1, h2, hj] using (ih sid).cons e.data
          · simpa [sse_worker_go, h1, h2, hj] using (ih sid).cons₂ e.data
        | none => simpa [sse_worker_go, h1, h2, hj] using (ih sid).cons e.data
      · simpa [sse_worker_go, h1, h2] using (ih sid).cons e.data

theorem relay_loop_fifo (ds : List String) :
    ∀ b, (relay_loop (ds.map some) b).1 = (ds.take b).map OutLine.mcpSse := by
  induction ds with
  | nil => intro b; cases b <;> simp [relay_loop]
  | cons d rest ih =>
    intro b
    cases b with
    | zero => simp [relay_loop]
    | succ b => simp [relay_loop, ih b]

/-- C3 (amended): the background worker pushes onto the message queue
exactly the events of declared type `message` that arrive after a
session id was seen and whose data parses as a JSON object — not every
event regardless of type, and not even every JSON-parsable message
event, since a non-dict parse result raises at the `msg.get` access
and is dropped by the except branch; the pushed data preserve stream
order (they form a sublist of the event data in arrival order), and
the caller's relay loop emits queue items as `[MCP SSE]` lines in FIFO
queue order up to its ten-item budget. -/
theorem C3_queue_policy (events : List SSEEvent) :
    (sse_session_and_stream events).2 = pushedSpec none events ∧
    ((sse_session_and_stream events).2).Sublist (events.map (fun e => e.data)) ∧
    ∀ ds : List String,
      (relay_loop (ds.map some) 10).1 = (ds.take 10).map OutLine.mcpSse :=
  ⟨sse_worker_pushedSpec events none, sse_worker_sublist events none,
   fun ds => relay_loop_fifo ds 10⟩

/-- C3 counterexample: after the session id is established, an event of
declared type `ping` with well-formed JSON data is read by the worker
but not pushed onto the message queue, while the same data under type
`message` is pushed; and even a `message` event is dropped when its
data is well-formed JSON that is not an object (the `msg.get` access
raises).  Pushing is therefore not independent of the declared event
type, refuting the claim. -/
theorem C3_counterexample :
    (sse_session_and_stream
      [⟨"endpoint", "/messages/?session_id=abc"⟩, ⟨"ping", "\x7b\x7d"⟩]).2 = [] ∧
    (sse_session_and_stream
      [⟨"endpoint", "/messages/?session_id=abc"⟩, ⟨"message", "\x7b\x7d"⟩]).2 =
      ["\x7b\x7d"] ∧
    jsonLoads "[1]" = some (Json.arr [Json.num 1]) ∧
    (sse_session_and_stream
      [⟨"endpoint", "/messages/?session_id=abc"⟩, ⟨"message", "[1]"⟩]).2 = [] :=
  ⟨rfl, rfl, rfl, rfl⟩

/-- C4 counterexample: on an LLM reply whose text has no non-whitespace
character, `result.strip().split()[0]` raises an uncaught `IndexError`
(modelled by `Except.error ()`), refuting the never-raising part of the
claim. -/
theorem C4_counterexample :
    map_intent_to_tool_llm (PyVal.str "") ["analyze_address"] = Except.error () :=
  rfl

/-- C4 (amended): for every LLM reply whose extracted text contains at
least one non-whitespace character, the router returns without raising
either a name from the catalog or the nothing-found marker: an exact
match of the first whitespace-delimited token wins; otherwise the first
catalog name (in catalog iteration order) matching the token
case-insensitively as a substring in either direction wins; otherwise
the marker is returned.  On a whitespace-only reply the router raises
an IndexError. -/
theorem C4_router_policy (result : PyVal) (names : List String) (s : String)
    (tk : List Char) (rest : List (List Char))
    (hs : blockText result = some s) (htok : pySplit s.data = tk :: rest) :
    ∃ out : Option String,
      map_intent_to_tool_llm result names = Except.ok out ∧
      (∀ n, out = some n → n ∈ names) ∧
      (String.mk tk ∈ names → out = some (String.mk tk)) ∧
      (out = none → String.mk tk ∉ names ∧
        ∀ n ∈ names, ciSubMatch (String.mk tk) n = false) ∧
      (String.mk tk ∉ names → ∀ n, out = some n →
        ciSubMatch (String.mk tk) n = true ∧
        ∃ l1 l2, names = l1 ++ n :: l2 ∧
          ∀ m ∈ l1, ciSubMatch (String.mk tk) m = false) := by
  by_cases hmem : String.mk tk ∈ names
  · refine ⟨some (String.mk tk), ?_, ?_, ?_, ?_, ?_⟩
    · simp [map_intent_to_tool_llm, hs, htok, hmem]
    · intro n hn
      simp only [Option.some.injEq] at hn
      subst hn
      exact hmem
    · intro _; rfl
    · intro h; exact Option.noConfusion h
    · intro hn; exact absurd hmem hn
  · cases hfind : names.find? (fun name => ciSubMatch (String.mk tk) name) with
    | some n =>
      obtain ⟨hp, l1, l2, hl, hall⟩ := find_first_decomp _ names n hfind
      refine ⟨some n, ?_, ?_, ?_, ?_, ?_⟩
      · simp [map_intent_to_tool_llm, hs, htok, hmem, hfind]
      · intro m hm
        simp only [Option.some.injEq] at hm
        subst hm
        rw [hl]
        exact List.mem_append_right _ (List.mem_cons_self _ _)
      · intro h; exact absurd h hmem
      · intro h; exact Option.noConfusion h
      · intro _ m hm
        simp only [Option.some.injEq] at hm
        subst hm
        exact ⟨hp, l1, l2, hl, hall⟩
    | none =>
      refine ⟨none, ?_, ?_, ?_, ?_, ?_⟩
      · simp [map_intent_to_tool_llm, hs, htok, hmem, hfind]
      · intro n hn; exact Option.noConfusion hn
      · intro h; exact absurd h hmem
      · intro _
        refine ⟨hmem, fun n hn => ?_⟩
        have := List.find?_eq_none.mp hfind n hn
        simpa using this
      · intro _ n hn; exact Option.noConfusion hn

theorem C4_router_policy_witness :
    blockText (PyVal.str "analyze_address") = some "analyze_address" ∧
    pySplit ("analyze_address" : String).data =
      [("analyze_address" : String).data] ∧
    ∃ out : Option String,
      map_intent_to_tool_llm (PyVal.str "analyze_address")
        ["analyze_address", "get_transaction_details"] = Except.ok out :=
  ⟨rfl, rfl,
   (C4_router_policy (PyVal.str "analyze_address")
       ["analyze_address", "get_transaction_details"] "analyze_address"
       ("analyze_address" : String).data [] rfl rfl).elim
     (fun out h => ⟨out, h.1⟩)⟩

/-- C5 counterexample, refuting the claim at both cited parsers.  For
ton_agent: a text containing the well-formed JSON object `("a" : 1)`
as a substring yields the empty mapping, because the greedy
first-brace-to-last-brace span and the whole text both fail to parse,
refuting the contains-implies-exact part.  For prompt_handler: the
well-formed non-object reply `[1, 2]` is returned as a JSON list, not
a mapping, refuting always-returns-a-mapping, and a text containing a
well-formed object behind leading noise yields the empty mapping (that
parser has no span recovery), refuting contains-implies-exact there
too. -/
theorem C5_counterexample :
    (("\x7b\"a\":1\x7d" : String).data <:+: ("\x7b\"a\":1\x7d\x7d" : String).data) ∧
    jsonLoads "\x7b\"a\":1\x7d" = some (Json.obj [("a", Json.num 1)]) ∧
    parse_blockchain_prompt_with_claude (PyVal.str "\x7b\"a\":1\x7d\x7d") =
      Json.obj [] ∧
    Json.obj [("a", Json.num 1)] ≠ Json.obj [] ∧
    ph_parse_blockchain_prompt_with_claude (PyVal.str "[1, 2]") =
      Except.ok (Json.arr [Json.num 1, Json.num 2]) ∧
    (∀ fs, Json.arr [Json.num 1, Json.num 2] ≠ Json.obj fs) ∧
    braceSpan (ph_clean "noise \x7b\"a\":1\x7d") =
      some ("\x7b\"a\":1\x7d" : String).data ∧
    ph_parse_blockchain_prompt_with_claude (PyVal.str "noise \x7b\"a\":1\x7d") =
      Except.ok (Json.obj []) :=
  ⟨⟨[], ['\x7d'], rfl⟩, rfl, rfl, by simp, rfl,
   fun fs h => Json.noConfusion h, rfl, rfl⟩

/-- C5 (amended): ton_agent's extractor always returns a mapping and
never raises; when the cleaned response text's first-open-brace-to-
last-close-brace span is a well-formed JSON object it returns exactly
that object, and likewise when no such span exists but the whole
cleaned text is a well-formed JSON object; a text that merely contains
a well-formed object surrounded by further braces can yield the empty
mapping instead.  prompt_handler's parser has no span recovery and no
coercion to a mapping: a string reply is returned as whatever JSON
value the whole cleaned text parses to (a non-object included), and
the empty mapping on parse failure; a content-block list whose block
carries a text that parses as a JSON object yields that object; and a
block that is a dict without a string under `text` raises an uncaught
AttributeError. -/
theorem C5_extractor (result : PyVal) :
    (∃ fs, parse_blockchain_prompt_with_claude result = Json.obj fs) ∧
    (∀ (t : String) (sp : List Char) (o : List (String × Json)),
      blockText result = some t →
      braceSpan (cleanText t) = some sp →
      jsonLoadsList sp = some (Json.obj o) →
      parse_blockchain_prompt_with_claude result = Json.obj o) ∧
    (∀ (t : String) (o : List (String × Json)),
      blockText result = some t →
      braceSpan (cleanText t) = none →
      jsonLoadsList (cleanText t) = some (Json.obj o) →
      parse_blockchain_prompt_with_claude result = Json.obj o) ∧
    (∀ (t : String) (v : Json),
      jsonLoadsList (ph_clean t) = some v →
      ph_parse_blockchain_prompt_with_claude (PyVal.str t) = Except.ok v) ∧
    (∀ t : String,
      jsonLoadsList (ph_clean t) = none →
      ph_parse_blockchain_prompt_with_claude (PyVal.str t) =
        Except.ok (Json.obj [])) ∧
    (∀ (s : String) (o : List (String × Json)),
      jsonLoadsList (ph_clean s) = some (Json.obj o) →
      ph_parse_blockchain_prompt_with_claude
        (PyVal.list [PyVal.dict [("text", PyVal.str s)]]) =
        Except.ok (Json.obj o)) ∧
    (∀ fs : List (String × PyVal),
      pyLookup fs "text" = none →
      ph_parse_blockchain_prompt_with_claude (PyVal.list [PyVal.dict fs]) =
        Except.error ()) := by
  refine ⟨?_, ?_, ?_, ?_, ?_, ?_, ?_⟩
  · rcases h : extract_json result with _ | b | n | s | xs | fs
    · exact ⟨[], by simp [parse_blockchain_prompt_with_claude, h]⟩
    · exact ⟨[], by simp [parse_blockchain_prompt_with_claude, h]⟩
    · exact ⟨[], by simp [parse_blockchain_prompt_with_claude, h]⟩
    · exact ⟨[], by simp [parse_blockchain_prompt_with_claude, h]⟩
    · exact ⟨[], by simp [parse_blockchain_prompt_with_claude, h]⟩
    · exact ⟨fs, by simp [parse_blockchain_prompt_with_claude, h]⟩
  · intro t sp o h1 h2 h3
    simp [parse_blockchain_prompt_with_claude, extract_json, h1, h2, h3]
  · intro t o h1 h2 h3
    simp [parse_blockchain_prompt_with_claude, extract_json, h1, h2, h3]
  · intro t v h
    by_cases ht : t = ""
    · subst ht
      rw [show jsonLoadsList (ph_clean "") = (none : Option Json) from rfl] at h
      exact Option.noConfusion h
    · simp [ph_parse_blockchain_prompt_with_claude, pyFalsy, ht, h]
  · intro t h
    by_cases ht : t = ""
    · subst ht; rfl
    · simp [ph_parse_blockchain_prompt_with_claude, pyFalsy, ht, h]
  · intro s o h
    simp [ph_parse_blockchain_prompt_with_claude, ph_scan_blocks, pyLookup, h]
  · intro fs h
    simp [ph_parse_blockchain_prompt_with_claude, ph_scan_blocks, h]

theorem C5_extractor_witness :
    blockText (PyVal.list [PyVal.dict [("text", PyVal.str fencedReply)]]) =
      some fencedReply ∧
    braceSpan (cleanText fencedReply) =
      some ("\x7b\"addresses\":[\"X\"]\x7d" : String).data ∧
    jsonLoadsList ("\x7b\"addresses\":[\"X\"]\x7d" : String).data =
      some (Json.obj [("addresses", Json.arr [Json.str "X"])]) ∧
    parse_blockchain_prompt_with_claude
      (PyVal.list [PyVal.dict [("text", PyVal.str fencedReply)]]) =
      Json.obj [("addresses", Json.arr [Json.str "X"])] ∧
    jsonLoadsList (ph_clean "\x7b\"k\":2\x7d") =
      some (Json.obj [("k", Json.num 2)]) ∧
    ph_parse_blockchain_prompt_with_claude (PyVal.str "\x7b\"k\":2\x7d") =
      Except.ok (Json.obj [("k", Json.num 2)]) :=
  ⟨rfl, rfl, rfl,
   (C5_extractor (PyVal.list [PyVal.dict [("text", PyVal.str fencedReply)]])).2.1
     fencedReply ("\x7b\"addresses\":[\"X\"]\x7d" : String).data
     [("addresses", Json.arr [Json.str "X"])] rfl rfl rfl,
   rfl,
   (C5_extractor (PyVal.str "\x7b\"k\":2\x7d")).2.2.2.1 "\x7b\"k\":2\x7d"
     (Json.obj [("k", Json.num 2)]) rfl⟩

end TonMcp
